import Mathlib

/-!
Shallow embedding of the advection core of the `paradis_model` repository
(`src/model/paradis.py`): the spherical coordinate transform
`NeuralSemiLagrangian._transform_to_latlon`, the periodic grid mapping and
pole correction of `NeuralSemiLagrangian.forward`, the padded bicubic
resampling step, and the outer `Paradis.forward` orchestration.
Tensors are modelled elementwise as functions from index tuples to real
numbers; the learned sub-networks (CLP blocks) are opaque function
parameters, exactly as the spec treats them.
-/

namespace ParadisModel

open Real

/-- Two-argument arctangent with the standard library convention used by
`torch.atan2`: the angle of the point `(x, y)` in `(-pi, pi]`, with
`atan2 0 0 = 0`. -/
noncomputable def atan2 (y x : ℝ) : ℝ :=
  if 0 < x then arctan (y / x)
  else if x < 0 then
    (if 0 ≤ y then arctan (y / x) + π else arctan (y / x) - π)
  else
    (if 0 < y then π / 2 else if y < 0 then -(π / 2) else 0)

/-- `torch.clamp x lo hi = min (max x lo) hi`. -/
noncomputable def clampR (x lo hi : ℝ) : ℝ := min (max x lo) hi

/-- `torch.remainder a b = a - b * floor (a / b)` (result has the sign of
the divisor). -/
noncomputable def fmod (a b : ℝ) : ℝ := a - b * ⌊a / b⌋

/-- `NeuralSemiLagrangian._transform_to_latlon` (paradis.py lines 34-63):
rotated local coordinates back to standard latitude and longitude, with
the arcsin argument clamped to `[-1 + 1e-7, 1 - 1e-7]` and the longitude
normalized by `torch.remainder (lon + 2*pi) (2*pi)`. -/
noncomputable def transformToLatlon (lat' lon' lat_p lon_p : ℝ) : ℝ × ℝ :=
  let sin_lat := Real.sin lat' * Real.cos lat_p +
    Real.cos lat' * Real.cos lon' * Real.sin lat_p
  let lat := Real.arcsin (clampR sin_lat (-1 + 1 / 10 ^ 7) (1 - 1 / 10 ^ 7))
  let num := Real.cos lat' * Real.sin lon'
  let den := Real.cos lat' * Real.cos lon' * Real.cos lat_p -
    Real.sin lat' * Real.sin lat_p
  let lon := lon_p + atan2 num den
  (lat, fmod (lon + 2 * π) (2 * π))

/-- Longitude periodic wrap (paradis.py line 117):
`grid_x = torch.remainder (grid_x + 1) 2 - 1`. -/
noncomputable def wrapX (gx : ℝ) : ℝ := fmod (gx + 1) 2 - 1

/-- First geocyclic `torch.where` (paradis.py line 123): shift `grid_x`
up by one where the pre-mirror `grid_y` is outside `[-1, 1]` and
`grid_x <= 0`. -/
noncomputable def geoShiftLeft (gy gx : ℝ) : ℝ :=
  if |gy| > 1 ∧ gx ≤ 0 then gx + 1 else gx

/-- Geocyclic longitude roll (paradis.py lines 119-124): the second
`torch.where` (line 124) applied after `geoShiftLeft`, with both masks
computed from the pre-shift `grid_x` and the pre-mirror `grid_y`. -/
noncomputable def geoShift (gx gy : ℝ) : ℝ :=
  if |gy| > 1 ∧ gx > 0 then geoShiftLeft gy gx - 1 else geoShiftLeft gy gx

/-- First latitude-mirror `torch.where` (paradis.py line 127). -/
noncomputable def mirrorYLow (gy : ℝ) : ℝ := if gy < -1 then -(2 + gy) else gy

/-- Latitude mirror (paradis.py lines 126-128): two sequential
`torch.where` updates; the second (line 128) tests the value produced by
the first. -/
noncomputable def mirrorY (gy : ℝ) : ℝ :=
  if mirrorYLow gy > 1 then 2 - mirrorYLow gy else mirrorYLow gy

/-- The periodic grid mapping of `NeuralSemiLagrangian.forward`
(paradis.py lines 113-128): linear rescale of the departure point to
normalized coordinates, longitude wrap, geocyclic roll, latitude mirror. -/
noncomputable def gridMap (lat_dep lon_dep min_lat max_lat min_lon max_lon : ℝ) :
    ℝ × ℝ :=
  let gx0 := 2 * (lon_dep - min_lon) / (max_lon - min_lon) - 1
  let gy0 := 2 * (lat_dep - min_lat) / (max_lat - min_lat) - 1
  (geoShift (wrapX gx0) gy0, mirrorY gy0)

/-- The latitude mirror as worded by the spec (one simultaneous case
split on the incoming value, rather than the code's two sequential
updates); kept separate so it can be compared with `mirrorY`. -/
noncomputable def mirrorYSpec (gy : ℝ) : ℝ :=
  if gy < -1 then -(2 + gy) else if gy > 1 then 2 - gy else gy

/-- The grid mapping as worded by the spec: identical to `gridMap`
except that the latitude mirror is the simultaneous `mirrorYSpec`. -/
noncomputable def gridMapSpec (lat_dep lon_dep min_lat max_lat min_lon max_lon : ℝ) :
    ℝ × ℝ :=
  let gx0 := 2 * (lon_dep - min_lon) / (max_lon - min_lon) - 1
  let gy0 := 2 * (lat_dep - min_lat) / (max_lat - min_lat) - 1
  (geoShift (wrapX gx0) gy0, mirrorYSpec gy0)

/-- Rescale of a normalized coordinate after padding (paradis.py lines
139-140): multiply by unpadded size over padded size `n / (n + 2)`. -/
noncomputable def rescalePad (x : ℝ) (n : ℕ) : ℝ := x * n / ((n : ℝ) + 2)

/-- The `align_corners=True` pixel mapping of `torch.nn.functional.grid_sample`
(external library primitive, convention stated by the spec):
normalized coordinate `x` addresses pixel `(x + 1) / 2 * (n - 1)` of an
`n`-pixel axis. -/
noncomputable def alignCorners (x : ℝ) (n : ℕ) : ℝ := (x + 1) / 2 * ((n : ℝ) - 1)

/-- First cubic convolution polynomial (distance below 1) of the bicubic
kernel used by `grid_sample` with `a = -0.75`. -/
noncomputable def cubicConv1 (t : ℝ) : ℝ :=
  ((-3 / 4 + 2) * t - (-3 / 4 + 3)) * t * t + 1

/-- Second cubic convolution polynomial (distance between 1 and 2) of the
bicubic kernel used by `grid_sample` with `a = -0.75`. -/
noncomputable def cubicConv2 (t : ℝ) : ℝ :=
  (((-3 / 4) * t - 5 * (-3 / 4)) * t + 8 * (-3 / 4)) * t - 4 * (-3 / 4)

/-- One 4-tap cubic interpolation pass at integer base `i` and fraction `t`. -/
noncomputable def cubicRow (g : ℤ → ℝ) (i : ℤ) (t : ℝ) : ℝ :=
  cubicConv2 (t + 1) * g (i - 1) + cubicConv1 t * g i +
    cubicConv1 (1 - t) * g (i + 1) + cubicConv2 (2 - t) * g (i + 2)

/-- Border clamp of a tap index to `[0, n]` (`padding_mode="border"`). -/
def clampIdx (n i : ℤ) : ℤ := max 0 (min i n)

/-- `torch.nn.functional.grid_sample` with `mode="bicubic"`,
`align_corners=True`, `padding_mode="border"` (external library
primitive): separable 4x4 cubic convolution about the unnormalized
coordinate, each tap index clamped to the valid range. -/
noncomputable def gridSampleBicubic (f : ℤ → ℤ → ℝ) (Hin Win : ℕ) (x y : ℝ) : ℝ :=
  cubicRow
    (fun iy =>
      cubicRow
        (fun ix => f (clampIdx ((Hin : ℤ) - 1) iy) (clampIdx ((Win : ℤ) - 1) ix))
        ⌊alignCorners x Win⌋ (Int.fract (alignCorners x Win)))
    ⌊alignCorners y Hin⌋ (Int.fract (alignCorners y Hin))

/-- Modelled from the spec: `GeoCyclicPadding` (`model/padding.py` is not
part of `src/`). Per spec sections 4.3 and 6 it pads a field by a halo of
one cell, periodic (wrapping) along the longitude axis and pole-consistent
along the latitude axis: the row beyond a pole is the nearest row shifted
by half the longitudes. Row index `0` and `H + 1` are the halo rows. -/
noncomputable def geoCyclicPad (H W : ℕ) (f : ℕ → ℕ → ℝ) : ℤ → ℤ → ℝ :=
  fun i j =>
    let jj : ℤ := (j - 1).emod (W : ℤ)
    if i ≤ 0 then f 0 (((jj + (W : ℤ) / 2).emod (W : ℤ)).toNat)
    else if (H : ℤ) < i then f (H - 1) (((jj + (W : ℤ) / 2).emod (W : ℤ)).toNat)
    else f ((i - 1).toNat) (jj.toNat)

/-- `torch.min` over a `[B, C, H, W]` grid tensor obtained by expanding a
`[B, H, W]` grid along the channel axis (paradis.py lines 99-104); the
channel copies are identical, so the minimum ranges over batch and the
two spatial axes. -/
noncomputable def tensorMin (B H W : ℕ) (g : ℕ → ℕ → ℕ → ℝ) : ℝ :=
  ⨅ p : Fin B × Fin H × Fin W, g p.1 p.2.1 p.2.2

/-- `torch.max`, analogous to `tensorMin`. -/
noncomputable def tensorMax (B H W : ℕ) (g : ℕ → ℕ → ℕ → ℝ) : ℝ :=
  ⨆ p : Fin B × Fin H × Fin W, g p.1 p.2.1 p.2.2

/-- Elementwise core of `NeuralSemiLagrangian.forward` (paradis.py lines
65-165) at output position `(b, c, i, j)`, with the velocity tensor `vel`
(`2 * C` channels, `u` the first `C` and `v` the last `C`, per the
`view`/slice of lines 84-90) passed in place of the opaque learned
velocity network output. -/
noncomputable def nslForwardField (B C H W : ℕ) (vel feat : ℕ → ℕ → ℕ → ℕ → ℝ)
    (latGrid lonGrid : ℕ → ℕ → ℕ → ℝ) (dt : ℝ) (b c i j : ℕ) : ℝ :=
  let u := vel b c i j
  let v := vel b (C + c) i j
  let lon' := -u * dt
  let lat' := -v * dt
  let dep := transformToLatlon lat' lon' (latGrid b i j) (lonGrid b i j)
  let g := gridMap dep.1 dep.2 (tensorMin B H W latGrid) (tensorMax B H W latGrid)
    (tensorMin B H W lonGrid) (tensorMax B H W lonGrid)
  gridSampleBicubic (geoCyclicPad H W (feat b c)) (H + 2) (W + 2)
    (rescalePad g.1 W) (rescalePad g.2 H)

/-- Modelled from the spec: the velocity predictor (`CLP` /
`VariationalCLP`, whose `model/clp_block.py` and `model/clp_variational.py`
are not part of `src/`) is constructed with output channel count
`2 * hidden_dim` (paradis.py lines 29-32; spec section 6 gives its shape
contract `Tensor[B,C,H,W] -> Tensor[B,2C,H,W]`). -/
def velocityOutChannels (hidden_dim : ℕ) : ℕ := 2 * hidden_dim

/-- Row-major flat offset of the element `[b, c, i, j]` of a contiguous
`[B, C, H, W]` tensor. -/
def flatIdx4 (C H W b c i j : ℕ) : ℕ := ((b * C + c) * H + i) * W + j

/-- Row-major flat offset of the element `[b, k, c, i, j]` of a
contiguous `[B, K, C, H, W]` tensor. -/
def flatIdx5 (K C H W b k c i j : ℕ) : ℕ := (((b * K + k) * C + c) * H + i) * W + j

/-- The `view` of paradis.py lines 84-86 reinterprets the flat buffer of
the `[B, 2*C, H, W]` velocity tensor as `[B, 2, C, H, W]`. -/
def view5 (C H W : ℕ) (buf : ℕ → ℝ) (b k c i j : ℕ) : ℝ :=
  buf (flatIdx5 2 C H W b k c i j)

/-- `u = velocities[:, 0]` (paradis.py line 89). -/
def uComp (C H W : ℕ) (buf : ℕ → ℝ) (b c i j : ℕ) : ℝ := view5 C H W buf b 0 c i j

/-- `v = velocities[:, 1]` (paradis.py line 90). -/
def vComp (C H W : ℕ) (buf : ℕ → ℝ) (b c i j : ℕ) : ℝ := view5 C H W buf b 1 c i j

/-- A Python runtime value flowing between the modules of
`Paradis.forward`: either a single tensor or the
`(interpolated, kl_loss)` pair returned by the variational advection. -/
inductive PyVal where
  | tensor : (ℕ → ℕ → ℕ → ℕ → ℝ) → PyVal
  | pair : (ℕ → ℕ → ℕ → ℕ → ℝ) → ℝ → PyVal

/-- `NeuralSemiLagrangian.forward` as seen by the caller (paradis.py
lines 65-170): the interpolated field, returned on its own in the
deterministic configuration and as a `(interpolated, kl_loss)` pair in
the variational configuration (lines 167-170). The learned velocity
network and its KL loss are opaque parameters. -/
noncomputable def nslForward (variational : Bool) (B C H W : ℕ)
    (velNet : (ℕ → ℕ → ℕ → ℕ → ℝ) → (ℕ → ℕ → ℕ → ℕ → ℝ))
    (klOf : (ℕ → ℕ → ℕ → ℕ → ℝ) → ℝ) (feat : ℕ → ℕ → ℕ → ℕ → ℝ)
    (latGrid lonGrid : ℕ → ℕ → ℕ → ℝ) (dt : ℝ) : PyVal :=
  if variational then
    PyVal.pair (nslForwardField B C H W (velNet feat) feat latGrid lonGrid dt) (klOf feat)
  else
    PyVal.tensor (nslForwardField B C H W (velNet feat) feat latGrid lonGrid dt)

/-- Latitude grid extracted by `Paradis.forward` (paradis.py lines
221-223): channel `-2` of the static slice `x[:, num_dynamic_channels:]`,
i.e. channel `Ctot - numDynamic - 2` of that slice. -/
def latGridOf (numDynamic Ctot : ℕ) (x : ℕ → ℕ → ℕ → ℕ → ℝ) : ℕ → ℕ → ℕ → ℝ :=
  fun b i j => x b (numDynamic + (Ctot - numDynamic - 2)) i j

/-- Longitude grid extracted by `Paradis.forward` (paradis.py line 224):
channel `-1` of the static slice. -/
def lonGridOf (numDynamic Ctot : ℕ) (x : ℕ → ℕ → ℕ → ℕ → ℝ) : ℕ → ℕ → ℕ → ℝ :=
  fun b i j => x b (numDynamic + (Ctot - numDynamic - 1)) i j

/-- One sub-step of the loop of `Paradis.forward` (paradis.py lines
233-241): the advection result is bound to `z_adv` as-is and fed to the
diffusion-reaction module and to the accumulation `z += z_adv + dt * dz`,
both of which are tensor operations -- they fail (`none`) when `z_adv`
is the `(tensor, scalar)` pair of the variational configuration. -/
noncomputable def paradisStep (variational : Bool) (B C H W : ℕ)
    (velNet diffusionReaction : (ℕ → ℕ → ℕ → ℕ → ℝ) → (ℕ → ℕ → ℕ → ℕ → ℝ))
    (klOf : (ℕ → ℕ → ℕ → ℕ → ℝ) → ℝ) (latGrid lonGrid : ℕ → ℕ → ℕ → ℝ)
    (dt : ℝ) (z : ℕ → ℕ → ℕ → ℕ → ℝ) : Option (ℕ → ℕ → ℕ → ℕ → ℝ) :=
  match nslForward variational B C H W velNet klOf z latGrid lonGrid dt with
  | PyVal.tensor zadv =>
      some (fun b c i j => z b c i j +
        (zadv b c i j + dt * diffusionReaction zadv b c i j))
  | PyVal.pair _ _ => none

/-- Sequential iteration of a fallible step, modelling the sub-step loop. -/
def iterateSub {α : Type} (f : α → Option α) : ℕ → α → Option α
  | 0, a => some a
  | n + 1, a => (f a).bind (iterateSub f n)

/-- `Paradis.forward` (paradis.py lines 219-244): extract the coordinate
grids from the last two static channels, project the input, run
`num_substeps` advection plus diffusion-reaction sub-steps, and return
the residual output `x[:, :num_common] + output_proj (z - z0)` (modelled
on the meaningful channel range `c < numCommon`). All learned modules
are opaque function parameters. -/
noncomputable def paradisForward (variational : Bool)
    (numDynamic numCommon substeps B C H W Ctot : ℕ)
    (inputProj diffusionReaction outputProj velNet :
      (ℕ → ℕ → ℕ → ℕ → ℝ) → (ℕ → ℕ → ℕ → ℕ → ℝ))
    (klOf : (ℕ → ℕ → ℕ → ℕ → ℝ) → ℝ) (dt : ℝ)
    (x : ℕ → ℕ → ℕ → ℕ → ℝ) : Option (ℕ → ℕ → ℕ → ℕ → ℝ) :=
  (iterateSub
      (paradisStep variational B C H W velNet diffusionReaction klOf
        (latGridOf numDynamic Ctot x) (lonGridOf numDynamic Ctot x) dt)
      substeps (inputProj x)).map
    (fun z => fun b c i j => x b c i j +
      outputProj (fun b' c' i' j' => z b' c' i' j' - inputProj x b' c' i' j') b c i j)

/-! ## Helper lemmas -/

theorem fmod_nonneg (a b : ℝ) (hb : 0 < b) : 0 ≤ fmod a b := by
  have hb' : b ≠ 0 := ne_of_gt hb
  have h : fmod a b = b * Int.fract (a / b) := by
    unfold fmod Int.fract
    field_simp
  rw [h]
  exact mul_nonneg hb.le (Int.fract_nonneg _)

theorem fmod_lt (a b : ℝ) (hb : 0 < b) : fmod a b < b := by
  have hb' : b ≠ 0 := ne_of_gt hb
  have h : fmod a b = b * Int.fract (a / b) := by
    unfold fmod Int.fract
    field_simp
  rw [h]
  calc b * Int.fract (a / b) < b * 1 :=
        (mul_lt_mul_left hb).mpr (Int.fract_lt_one _)
    _ = b := mul_one b

theorem cubic_weights_sum (t : ℝ) :
    cubicConv2 (t + 1) + cubicConv1 t + cubicConv1 (1 - t) + cubicConv2 (2 - t) = 1 := by
  unfold cubicConv1 cubicConv2
  ring

theorem cubicRow_const (g : ℤ → ℝ) (c : ℝ) (hg : ∀ i, g i = c) (i : ℤ) (t : ℝ) :
    cubicRow g i t = c := by
  unfold cubicRow
  rw [hg, hg, hg, hg]
  linear_combination c * cubic_weights_sum t

theorem gridSampleBicubic_const (f : ℤ → ℤ → ℝ) (Hin Win : ℕ) (x y c : ℝ)
    (hf : ∀ i j, f i j = c) : gridSampleBicubic f Hin Win x y = c := by
  unfold gridSampleBicubic
  exact cubicRow_const _ c (fun iy => cubicRow_const _ c (fun ix => hf _ _) _ _) _ _

theorem geoCyclicPad_const (H W : ℕ) (f : ℕ → ℕ → ℝ) (c : ℝ)
    (hf : ∀ i j, f i j = c) (i j : ℤ) : geoCyclicPad H W f i j = c := by
  unfold geoCyclicPad
  split_ifs <;> apply hf

theorem fmod_int_mul (k : ℤ) (b : ℝ) (hb : b ≠ 0) : fmod ((k : ℝ) * b) b = 0 := by
  unfold fmod
  rw [mul_div_assoc, div_self hb, mul_one, Int.floor_intCast]
  ring

theorem wrapX_mem (gx : ℝ) : -1 ≤ wrapX gx ∧ wrapX gx < 1 := by
  unfold wrapX
  have h1 := fmod_nonneg (gx + 1) 2 (by norm_num)
  have h2 := fmod_lt (gx + 1) 2 (by norm_num)
  constructor <;> linarith

theorem geoShift_mem (gx gy : ℝ) (h1 : -1 ≤ gx) (h2 : gx < 1) :
    -1 ≤ geoShift gx gy ∧ geoShift gx gy ≤ 1 := by
  unfold geoShift geoShiftLeft
  split_ifs with ha hb hc
  · constructor <;> linarith
  · have := ha.2
    constructor <;> linarith
  · have := hc.2
    constructor <;> linarith
  · constructor <;> linarith

theorem geoShift_of_inner (gx gy : ℝ) (h : ¬ |gy| > 1) : geoShift gx gy = gx := by
  unfold geoShift geoShiftLeft
  rw [if_neg (fun hc => h hc.1), if_neg (fun hc => h hc.1)]

theorem mirrorY_mem (gy : ℝ) (h1 : -5 ≤ gy) (h2 : gy ≤ 3) :
    -1 ≤ mirrorY gy ∧ mirrorY gy ≤ 1 := by
  unfold mirrorY mirrorYLow
  split_ifs with ha hb hc
  · constructor <;> linarith
  · constructor <;> linarith
  · constructor <;> linarith
  · constructor <;> linarith

/-- Latitudes of the 4x8 end-to-end scenario grid of the spec:
`-67.5, -22.5, 22.5, 67.5` degrees, i.e. `(i / 4 - 3 / 8) * pi` radians
for row `i`. -/
noncomputable def scenarioLat : ℕ → ℕ → ℕ → ℝ := fun _ i _ => ((i : ℝ) / 4 - 3 / 8) * π

/-- Longitudes of the 4x8 end-to-end scenario grid of the spec:
`0, 45, ..., 315` degrees, i.e. `j * pi / 4` radians for column `j`. -/
noncomputable def scenarioLon : ℕ → ℕ → ℕ → ℝ := fun _ _ j => (j : ℝ) * π / 4

/-! ## Claim theorems -/

/-- C6: the coordinate transform back to standard latitude/longitude is a
total function; the sine of latitude is clamped to
`[-1 + 1e-7, 1 - 1e-7]` before `arcsin` (definitional in
`transformToLatlon`), so the returned latitude lies strictly inside
`(-pi/2, pi/2)`, and the returned longitude lies in `[0, 2*pi)`. -/
theorem transform_to_latlon_total_range (lat' lon' lat_p lon_p : ℝ) :
    -(π / 2) < (transformToLatlon lat' lon' lat_p lon_p).1 ∧
    (transformToLatlon lat' lon' lat_p lon_p).1 < π / 2 ∧
    0 ≤ (transformToLatlon lat' lon' lat_p lon_p).2 ∧
    (transformToLatlon lat' lon' lat_p lon_p).2 < 2 * π := by
  have h : transformToLatlon lat' lon' lat_p lon_p =
      (Real.arcsin (clampR (Real.sin lat' * Real.cos lat_p +
          Real.cos lat' * Real.cos lon' * Real.sin lat_p)
          (-1 + 1 / 10 ^ 7) (1 - 1 / 10 ^ 7)),
        fmod (lon_p + atan2 (Real.cos lat' * Real.sin lon')
          (Real.cos lat' * Real.cos lon' * Real.cos lat_p -
            Real.sin lat' * Real.sin lat_p) + 2 * π) (2 * π)) := rfl
  rw [h]
  have h2pi : (0 : ℝ) < 2 * π := by positivity
  have hlo : (-1 : ℝ) < clampR (Real.sin lat' * Real.cos lat_p +
      Real.cos lat' * Real.cos lon' * Real.sin lat_p)
      (-1 + 1 / 10 ^ 7) (1 - 1 / 10 ^ 7) := by
    unfold clampR
    rw [lt_min_iff]
    constructor
    · calc (-1 : ℝ) < -1 + 1 / 10 ^ 7 := by norm_num
        _ ≤ max _ _ := le_max_right _ _
    · norm_num
  have hhi : clampR (Real.sin lat' * Real.cos lat_p +
      Real.cos lat' * Real.cos lon' * Real.sin lat_p)
      (-1 + 1 / 10 ^ 7) (1 - 1 / 10 ^ 7) < 1 := by
    unfold clampR
    exact lt_of_le_of_lt (min_le_right _ _) (by norm_num)
  exact ⟨Real.neg_pi_div_two_lt_arcsin.mpr hlo,
    Real.arcsin_lt_pi_div_two.mpr hhi,
    fmod_nonneg _ _ h2pi, fmod_lt _ _ h2pi⟩

/-- C1 counterexample: for the unpadded width `W = 8`, the rescaled
extreme coordinate `1 * W / (W + 2)` does NOT land on padded pixel index
`W` under the `align_corners` mapping: it lands at `8.1`, not `8`. -/
theorem rescale_align_counterexample :
    alignCorners (rescalePad 1 8) (8 + 2) ≠ (8 : ℝ) := by
  unfold alignCorners rescalePad
  norm_num

/-- C1 amended: the resampler does rescale normalized coordinates by
`W / (W + 2)` (horizontally; `H / (H + 2)` vertically is the same formula),
but under the `align_corners` pixel mapping the rescaled extreme
coordinate `+1` lands at padded pixel `W + 1 / (W + 2)` -- an offset of
`1 / (W + 2)` past the center of the last unpadded pixel (index `W`) --
and `-1` lands at `1 - 1 / (W + 2)`, short of the first unpadded pixel
(index `1`) by the same offset; there is no exact center alignment. -/
theorem rescale_align_offset (W : ℕ) :
    rescalePad 1 W = (W : ℝ) / ((W : ℝ) + 2) ∧
    alignCorners (rescalePad 1 W) (W + 2) = (W : ℝ) + 1 / ((W : ℝ) + 2) ∧
    alignCorners (rescalePad (-1) W) (W + 2) = 1 - 1 / ((W : ℝ) + 2) := by
  have hW : ((W : ℝ) + 2) ≠ 0 := by positivity
  unfold alignCorners rescalePad
  push_cast
  refine ⟨by ring, ?_, ?_⟩ <;> field_simp <;> ring

/-- C5: with zero velocity the rotated-frame displacement is zero, so the
departure point equals the arrival point (latitude up to the arcsin
domain clamp, longitude taken modulo `2*pi`); and on the 4x8 scenario
grid with the uniform field `1.0` and `dt = 0.01` the advection output is
exactly `1.0` everywhere, hence within `1e-5` of the input. -/
theorem zero_velocity_identity (lat_p lon_p : ℝ)
    (h1 : |Real.sin lat_p| ≤ 1 - 1 / 10 ^ 7)
    (h2 : -(π / 2) ≤ lat_p) (h3 : lat_p ≤ π / 2)
    (h4 : 0 ≤ lon_p) (h5 : lon_p < 2 * π) (b c i j : ℕ) :
    transformToLatlon 0 0 lat_p lon_p = (lat_p, lon_p) ∧
    |nslForwardField 1 1 4 8 (fun _ _ _ _ => 0) (fun _ _ _ _ => 1)
        scenarioLat scenarioLon (1 / 100) b c i j - 1| ≤ 1 / 10 ^ 5 := by
  constructor
  · have habs := abs_le.mp h1
    have h2pi : (0 : ℝ) < 2 * π := by positivity
    have hs : Real.sin 0 * Real.cos lat_p + Real.cos 0 * Real.cos 0 * Real.sin lat_p =
        Real.sin lat_p := by
      rw [Real.sin_zero, Real.cos_zero]
      ring
    have hclamp : clampR (Real.sin 0 * Real.cos lat_p +
        Real.cos 0 * Real.cos 0 * Real.sin lat_p)
        (-1 + 1 / 10 ^ 7) (1 - 1 / 10 ^ 7) = Real.sin lat_p := by
      rw [hs]
      unfold clampR
      rw [max_eq_left (by linarith [habs.1]), min_eq_left (by linarith [habs.2])]
    have hnum : Real.cos 0 * Real.sin 0 = 0 := by
      rw [Real.sin_zero]
      ring
    have hden : Real.cos 0 * Real.cos 0 * Real.cos lat_p -
        Real.sin 0 * Real.sin lat_p = Real.cos lat_p := by
      rw [Real.sin_zero, Real.cos_zero]
      ring
    have hatan : atan2 0 (Real.cos lat_p) = 0 := by
      have hcos : 0 ≤ Real.cos lat_p := Real.cos_nonneg_of_mem_Icc ⟨h2, h3⟩
      unfold atan2
      rcases lt_or_eq_of_le hcos with hpos | hzero
      · rw [if_pos hpos, zero_div, Real.arctan_zero]
      · rw [if_neg (by rw [← hzero]; exact lt_irrefl 0),
          if_neg (by rw [← hzero]; exact lt_irrefl 0),
          if_neg (lt_irrefl 0), if_neg (lt_irrefl 0)]
    have hfloor : ⌊(lon_p + 0 + 2 * π) / (2 * π)⌋ = 1 := by
      rw [Int.floor_eq_iff]
      constructor
      · push_cast
        rw [le_div_iff₀ h2pi]
        linarith
      · push_cast
        rw [div_lt_iff₀ h2pi]
        linarith
    have hpair : transformToLatlon 0 0 lat_p lon_p =
        (Real.arcsin (clampR (Real.sin 0 * Real.cos lat_p +
            Real.cos 0 * Real.cos 0 * Real.sin lat_p)
            (-1 + 1 / 10 ^ 7) (1 - 1 / 10 ^ 7)),
          fmod (lon_p + atan2 (Real.cos 0 * Real.sin 0)
            (Real.cos 0 * Real.cos 0 * Real.cos lat_p -
              Real.sin 0 * Real.sin lat_p) + 2 * π) (2 * π)) := rfl
    rw [hpair, hclamp, hnum, hden, hatan, Real.arcsin_sin h2 h3]
    unfold fmod
    rw [hfloor]
    norm_num
  · have hout : nslForwardField 1 1 4 8 (fun _ _ _ _ => 0) (fun _ _ _ _ => 1)
        scenarioLat scenarioLon (1 / 100) b c i j = 1 := by
      unfold nslForwardField
      exact gridSampleBicubic_const _ _ _ _ _ 1
        (geoCyclicPad_const _ _ _ 1 (fun _ _ => rfl))
    rw [hout]
    norm_num

/-- C2 counterexample: the grid mapping does NOT always land in
`[-1, 1]`: for the real-valued departure latitude `3` on a grid with
latitude extrema `0` and `1` (rescaled coordinate `5`), the mirrored
`grid_y` is `-3`, strictly below `-1`. -/
theorem grid_mapping_escape : (gridMap 3 0 0 1 0 1).2 < -1 := by
  have h : (gridMap 3 0 0 1 0 1).2 = mirrorY (2 * (3 - 0) / (1 - 0) - 1) := rfl
  have h5 : (2 : ℝ) * (3 - 0) / (1 - 0) - 1 = 5 := by norm_num
  rw [h, h5]
  unfold mirrorY mirrorYLow
  rw [if_neg (by norm_num : ¬ (5 : ℝ) < -1)]
  rw [if_pos (by norm_num : (5 : ℝ) > 1)]
  norm_num

/-- C2 amended: `grid_x` always lies in `[-1, 1]` (in fact in `[-1, 1)`),
and `grid_y` lies in `[-1, 1]` provided the linearly rescaled latitude
coordinate `2 * (lat_dep - min_lat) / (max_lat - min_lat) - 1` lies in
`[-5, 3]` (one longitude wrap never needed; a single mirror fold, or the
two sequential folds for values below `-3`, then suffice); outside
`[-5, 3]` the mirrored `grid_y` escapes `[-1, 1]`. -/
theorem grid_mapping_bounds (lat_dep lon_dep mla bla mlo blo : ℝ)
    (hy1 : -5 ≤ 2 * (lat_dep - mla) / (bla - mla) - 1)
    (hy2 : 2 * (lat_dep - mla) / (bla - mla) - 1 ≤ 3) :
    (-1 ≤ (gridMap lat_dep lon_dep mla bla mlo blo).1 ∧
      (gridMap lat_dep lon_dep mla bla mlo blo).1 ≤ 1) ∧
    (-1 ≤ (gridMap lat_dep lon_dep mla bla mlo blo).2 ∧
      (gridMap lat_dep lon_dep mla bla mlo blo).2 ≤ 1) := by
  have hx : (gridMap lat_dep lon_dep mla bla mlo blo).1 =
      geoShift (wrapX (2 * (lon_dep - mlo) / (blo - mlo) - 1))
        (2 * (lat_dep - mla) / (bla - mla) - 1) := rfl
  have hy : (gridMap lat_dep lon_dep mla bla mlo blo).2 =
      mirrorY (2 * (lat_dep - mla) / (bla - mla) - 1) := rfl
  rw [hx, hy]
  have hw := wrapX_mem (2 * (lon_dep - mlo) / (blo - mlo) - 1)
  exact ⟨geoShift_mem _ _ hw.1 hw.2, mirrorY_mem _ hy1 hy2⟩

/-- Witness for the amended C2 at the concrete departure point
`(1/2, 0)` with latitude extrema `0, 1` and longitude extrema `0, 1`. -/
theorem grid_mapping_bounds_witness :
    (-1 ≤ (gridMap (1 / 2) 0 0 1 0 1).1 ∧ (gridMap (1 / 2) 0 0 1 0 1).1 ≤ 1) ∧
    (-1 ≤ (gridMap (1 / 2) 0 0 1 0 1).2 ∧ (gridMap (1 / 2) 0 0 1 0 1).2 ≤ 1) :=
  grid_mapping_bounds (1 / 2) 0 0 1 0 1 (by norm_num) (by norm_num)

/-- C4 counterexample: reading the latitude mirror as a simultaneous case
split on the incoming `grid_y` (value `-(2 + grid_y)` whenever
`grid_y < -1`) disagrees with the code: at departure latitude `-3/2` on a
grid with latitude extrema `0, 1` (rescaled coordinate `-4`), the code's
two sequential mirror updates produce `0`, while the claim's case formula
produces `-(2 + (-4)) = 2`. -/
theorem mirror_order_counterexample :
    (gridMap (-3 / 2) 0 0 1 0 1).2 = 0 ∧
    (gridMapSpec (-3 / 2) 0 0 1 0 1).2 = 2 ∧
    (gridMap (-3 / 2) 0 0 1 0 1).2 ≠ (gridMapSpec (-3 / 2) 0 0 1 0 1).2 := by
  have h4 : (2 : ℝ) * (-3 / 2 - 0) / (1 - 0) - 1 = -4 := by norm_num
  have hcode : (gridMap (-3 / 2) 0 0 1 0 1).2 = 0 := by
    have h : (gridMap (-3 / 2) 0 0 1 0 1).2 =
        mirrorY (2 * (-3 / 2 - 0) / (1 - 0) - 1) := rfl
    rw [h, h4]
    unfold mirrorY mirrorYLow
    rw [if_pos (by norm_num : (-4 : ℝ) < -1)]
    rw [if_pos (by norm_num : -(2 + (-4 : ℝ)) > 1)]
    norm_num
  have hspec : (gridMapSpec (-3 / 2) 0 0 1 0 1).2 = 2 := by
    have h : (gridMapSpec (-3 / 2) 0 0 1 0 1).2 =
        mirrorYSpec (2 * (-3 / 2 - 0) / (1 - 0) - 1) := rfl
    rw [h, h4]
    unfold mirrorYSpec
    rw [if_pos (by norm_num : (-4 : ℝ) < -1)]
    norm_num
  refine ⟨hcode, hspec, ?_⟩
  rw [hcode, hspec]
  norm_num

/-- C4 amended: the grid mapping applies, in order, the linear rescale,
the longitude wrap, the geocyclic shift (sign taken from the wrapped,
pre-shift, pre-mirror `grid_x`; no change when the rescaled latitude has
absolute value at most `1`), and then the two latitude-mirror updates in
sequence, so that the final `grid_y` is `4 + g` for rescaled `g < -3`,
`-(2 + g)` for `-3 <= g < -1`, `2 - g` for `g > 1`, and `g` otherwise. -/
theorem grid_mapping_order (lat_dep lon_dep mla bla mlo blo : ℝ) :
    (gridMap lat_dep lon_dep mla bla mlo blo).1 =
      (if |2 * (lat_dep - mla) / (bla - mla) - 1| > 1 then
        (if wrapX (2 * (lon_dep - mlo) / (blo - mlo) - 1) ≤ 0 then
          wrapX (2 * (lon_dep - mlo) / (blo - mlo) - 1) + 1
        else wrapX (2 * (lon_dep - mlo) / (blo - mlo) - 1) - 1)
      else wrapX (2 * (lon_dep - mlo) / (blo - mlo) - 1)) ∧
    (gridMap lat_dep lon_dep mla bla mlo blo).2 =
      (if 2 * (lat_dep - mla) / (bla - mla) - 1 < -3 then
        4 + (2 * (lat_dep - mla) / (bla - mla) - 1)
      else if 2 * (lat_dep - mla) / (bla - mla) - 1 < -1 then
        -(2 + (2 * (lat_dep - mla) / (bla - mla) - 1))
      else if 2 * (lat_dep - mla) / (bla - mla) - 1 > 1 then
        2 - (2 * (lat_dep - mla) / (bla - mla) - 1)
      else 2 * (lat_dep - mla) / (bla - mla) - 1) := by
  constructor
  · have h : (gridMap lat_dep lon_dep mla bla mlo blo).1 =
        geoShift (wrapX (2 * (lon_dep - mlo) / (blo - mlo) - 1))
          (2 * (lat_dep - mla) / (bla - mla) - 1) := rfl
    rw [h]
    set x := wrapX (2 * (lon_dep - mlo) / (blo - mlo) - 1) with hxdef
    set g := 2 * (lat_dep - mla) / (bla - mla) - 1 with hgdef
    unfold geoShift geoShiftLeft
    by_cases hout : |g| > 1
    · by_cases hxle : x ≤ 0
      · rw [if_neg (fun hc => absurd hc.2 (not_lt.mpr hxle)),
          if_pos (show |g| > 1 ∧ x ≤ 0 from ⟨hout, hxle⟩), if_pos hout, if_pos hxle]
      · rw [if_pos (show |g| > 1 ∧ x > 0 from ⟨hout, not_le.mp hxle⟩),
          if_neg (fun hc => absurd hc.2 hxle), if_pos hout, if_neg hxle]
    · rw [if_neg (fun hc : |g| > 1 ∧ x > 0 => absurd hc.1 hout),
        if_neg (fun hc : |g| > 1 ∧ x ≤ 0 => absurd hc.1 hout), if_neg hout]
  · have h : (gridMap lat_dep lon_dep mla bla mlo blo).2 =
        mirrorY (2 * (lat_dep - mla) / (bla - mla) - 1) := rfl
    rw [h]
    set g := 2 * (lat_dep - mla) / (bla - mla) - 1 with hgdef
    unfold mirrorY mirrorYLow
    rcases lt_or_le g (-3) with h3 | h3
    · rw [if_pos (show g < -1 by linarith), if_pos (show -(2 + g) > 1 by linarith),
        if_pos h3]
      ring
    · rcases lt_or_le g (-1) with h1 | h1
      · rw [if_pos h1, if_neg (show ¬ -(2 + g) > 1 by linarith),
          if_neg (not_lt.mpr h3), if_pos h1]
      · rcases lt_or_le 1 g with hg1 | hg1
        · rw [if_neg (not_lt.mpr h1), if_pos hg1, if_neg (not_lt.mpr h3),
            if_neg (not_lt.mpr h1)]
        · rw [if_neg (not_lt.mpr h1), if_neg (not_lt.mpr hg1),
            if_neg (not_lt.mpr h3), if_neg (not_lt.mpr h1)]

/-- C3: shifting every grid longitude by a full `2*pi` wraparound does
NOT leave the advection output unchanged. The departure longitude is
normalized to `[0, 2*pi)` by `transformToLatlon` (first conjunct: at
arrival longitude `0` it is `0` with or without the shift), but the
longitude extrema fed to the grid mapping are taken from the raw shifted
grid, so on the scenario grid (longitude extent `7*pi/4`) the normalized
sampling coordinate `grid_x` of the very same departure point moves from
`-1` to `5/7` (second and third conjuncts): the field is resampled at
different locations and the outputs differ. -/
theorem lon_wraparound_not_invariant :
    (transformToLatlon 0 0 (1 / 2) (0 + 2 * π)).2 =
      (transformToLatlon 0 0 (1 / 2) 0).2 ∧
    (gridMap (1 / 2) 0 0 1 0 (7 * π / 4)).1 = -1 ∧
    (gridMap (1 / 2) 0 0 1 (2 * π) (2 * π + 7 * π / 4)).1 = 5 / 7 := by
  have hpi := Real.pi_pos
  have h2pi : (2 * π : ℝ) ≠ 0 := by positivity
  have hnum0 : Real.cos 0 * Real.sin 0 = 0 := by
    rw [Real.sin_zero]
    ring
  have hden0 : Real.cos 0 * Real.cos 0 * Real.cos (1 / 2) -
      Real.sin 0 * Real.sin (1 / 2) = Real.cos (1 / 2) := by
    rw [Real.sin_zero, Real.cos_zero]
    ring
  have hcos : (0 : ℝ) < Real.cos (1 / 2) :=
    Real.cos_pos_of_mem_Ioo ⟨by nlinarith [Real.pi_gt_three], by nlinarith [Real.pi_gt_three]⟩
  have hatan : atan2 0 (Real.cos (1 / 2)) = 0 := by
    unfold atan2
    rw [if_pos hcos, zero_div, Real.arctan_zero]
  have hgy0 : (2 : ℝ) * (1 / 2 - 0) / (1 - 0) - 1 = 0 := by norm_num
  have hnotouter : ¬ |(2 : ℝ) * (1 / 2 - 0) / (1 - 0) - 1| > 1 := by
    rw [hgy0]
    simp
  refine ⟨?_, ?_, ?_⟩
  · have hL : (transformToLatlon 0 0 (1 / 2) (0 + 2 * π)).2 =
        fmod (0 + 2 * π + atan2 (Real.cos 0 * Real.sin 0)
          (Real.cos 0 * Real.cos 0 * Real.cos (1 / 2) -
            Real.sin 0 * Real.sin (1 / 2)) + 2 * π) (2 * π) := rfl
    have hR : (transformToLatlon 0 0 (1 / 2) 0).2 =
        fmod (0 + atan2 (Real.cos 0 * Real.sin 0)
          (Real.cos 0 * Real.cos 0 * Real.cos (1 / 2) -
            Real.sin 0 * Real.sin (1 / 2)) + 2 * π) (2 * π) := rfl
    rw [hL, hR, hnum0, hden0, hatan]
    rw [show (0 + 2 * π + 0 + 2 * π : ℝ) = ((2 : ℤ) : ℝ) * (2 * π) by push_cast; ring]
    rw [show (0 + 0 + 2 * π : ℝ) = ((1 : ℤ) : ℝ) * (2 * π) by push_cast; ring]
    rw [fmod_int_mul 2 _ h2pi, fmod_int_mul 1 _ h2pi]
  · have h : (gridMap (1 / 2) 0 0 1 0 (7 * π / 4)).1 =
        geoShift (wrapX (2 * (0 - 0) / (7 * π / 4 - 0) - 1))
          (2 * (1 / 2 - 0) / (1 - 0) - 1) := rfl
    rw [h, geoShift_of_inner _ _ hnotouter]
    rw [show (2 : ℝ) * (0 - 0) / (7 * π / 4 - 0) - 1 = -1 by
      rw [show (2 : ℝ) * (0 - 0) = 0 by ring, zero_div]
      norm_num]
    unfold wrapX fmod
    rw [show ((-1 : ℝ) + 1) / 2 = 0 by norm_num]
    rw [Int.floor_zero]
    norm_num
  · have h : (gridMap (1 / 2) 0 0 1 (2 * π) (2 * π + 7 * π / 4)).1 =
        geoShift (wrapX (2 * (0 - 2 * π) / ((2 * π + 7 * π / 4) - 2 * π) - 1))
          (2 * (1 / 2 - 0) / (1 - 0) - 1) := rfl
    rw [h, geoShift_of_inner _ _ hnotouter]
    have hden : ((2 * π + 7 * π / 4) - 2 * π : ℝ) = 7 * π / 4 := by ring
    have hgx0 : (2 : ℝ) * (0 - 2 * π) / ((2 * π + 7 * π / 4) - 2 * π) - 1 = -23 / 7 := by
      rw [hden]
      have h74 : (7 * π / 4 : ℝ) ≠ 0 := by positivity
      field_simp
      ring
    rw [hgx0]
    unfold wrapX fmod
    have hfl : ⌊((-23 / 7 : ℝ) + 1) / 2⌋ = -2 := by
      rw [Int.floor_eq_iff]
      constructor <;> norm_num
    rw [hfl]
    norm_num

/-- Witness for C5 at the concrete arrival point `(0, 0)` and output cell
`(0, 0, 0, 0)`. -/
theorem zero_velocity_identity_witness :
    transformToLatlon 0 0 0 0 = (0, 0) ∧
    |nslForwardField 1 1 4 8 (fun _ _ _ _ => 0) (fun _ _ _ _ => 1)
        scenarioLat scenarioLon (1 / 100) 0 0 0 0 - 1| ≤ 1 / 10 ^ 5 :=
  zero_velocity_identity 0 0 (by rw [Real.sin_zero]; norm_num)
    (neg_nonpos.mpr (by positivity)) (by positivity) le_rfl
    (by positivity) 0 0 0 0

theorem iterateSub_total {α : Type} (f : α → Option α) (hf : ∀ a, ∃ b, f a = some b) :
    ∀ (n : ℕ) (a : α), ∃ b, iterateSub f n a = some b := by
  intro n
  induction n with
  | zero => exact fun a => ⟨a, rfl⟩
  | succ n ih =>
    intro a
    obtain ⟨b, hb⟩ := hf a
    obtain ⟨c, hc⟩ := ih b
    refine ⟨c, ?_⟩
    rw [iterateSub, hb]
    exact hc

/-- C7: the velocity predictor is built with `2 * C` output channels, and
the `view` plus slicing of paradis.py lines 84-90 takes `u` for channel
`c` from channel `c` of the flat `[B, 2C, H, W]` velocity buffer (first
half) and `v` from channel `C + c` (second half), at every batch element
and spatial position. -/
theorem velocity_split (C H W b c i j : ℕ) (buf : ℕ → ℝ) (hc : c < C) :
    velocityOutChannels C = 2 * C ∧
    uComp C H W buf b c i j = buf (flatIdx4 (2 * C) H W b c i j) ∧
    vComp C H W buf b c i j = buf (flatIdx4 (2 * C) H W b (C + c) i j) := by
  refine ⟨rfl, ?_, ?_⟩
  · unfold uComp view5 flatIdx5 flatIdx4
    congr 1
    ring
  · unfold vComp view5 flatIdx5 flatIdx4
    congr 1
    ring

/-- Witness for C7 with `C = 2` channels at channel `c = 1` on an
enumerating buffer. -/
theorem velocity_split_witness :
    velocityOutChannels 2 = 2 * 2 ∧
    uComp 2 1 1 (fun n => (n : ℝ)) 0 1 0 0 =
      (fun n => (n : ℝ)) (flatIdx4 (2 * 2) 1 1 0 1 0 0) ∧
    vComp 2 1 1 (fun n => (n : ℝ)) 0 1 0 0 =
      (fun n => (n : ℝ)) (flatIdx4 (2 * 2) 1 1 0 (2 + 1) 0 0) :=
  velocity_split 2 1 1 0 1 0 0 (fun n => (n : ℝ)) (by norm_num)

/-- C9: in the variational configuration the advection returns a
`(tensor, scalar)` pair which `Paradis.forward` binds to `z_adv` without
unpacking and feeds to the diffusion-reaction module and the accumulation
`z += z_adv + dt * dz`; with at least one sub-step the outer forward
therefore fails before producing an output (`none`), while the
non-variational configuration always produces one. -/
theorem variational_pair_breaks_outer (numDynamic numCommon substeps B C H W Ctot : ℕ)
    (inputProj diffusionReaction outputProj velNet :
      (ℕ → ℕ → ℕ → ℕ → ℝ) → (ℕ → ℕ → ℕ → ℕ → ℝ))
    (klOf : (ℕ → ℕ → ℕ → ℕ → ℝ) → ℝ) (dt : ℝ) (x : ℕ → ℕ → ℕ → ℕ → ℝ)
    (hs : 1 ≤ substeps) :
    paradisForward true numDynamic numCommon substeps B C H W Ctot
      inputProj diffusionReaction outputProj velNet klOf dt x = none ∧
    (paradisForward false numDynamic numCommon substeps B C H W Ctot
      inputProj diffusionReaction outputProj velNet klOf dt x).isSome = true := by
  constructor
  · obtain ⟨n, rfl⟩ : ∃ n, substeps = n + 1 := ⟨substeps - 1, by omega⟩
    have hstep : ∀ z, paradisStep true B C H W velNet diffusionReaction klOf
        (latGridOf numDynamic Ctot x) (lonGridOf numDynamic Ctot x) dt z = none :=
      fun z => rfl
    unfold paradisForward
    rw [iterateSub, hstep]
    rfl
  · have hstep : ∀ z, ∃ z2, paradisStep false B C H W velNet diffusionReaction klOf
        (latGridOf numDynamic Ctot x) (lonGridOf numDynamic Ctot x) dt z = some z2 :=
      fun z => ⟨_, rfl⟩
    obtain ⟨z, hz⟩ := iterateSub_total _ hstep substeps (inputProj x)
    unfold paradisForward
    rw [hz]
    rfl

/-- Witness for C9 with one sub-step, identity modules and a zero input. -/
theorem variational_pair_breaks_outer_witness :
    paradisForward true 1 1 1 1 1 1 1 4 id id id id (fun _ => 0) 0
      (fun _ _ _ _ => 0) = none ∧
    (paradisForward false 1 1 1 1 1 1 1 4 id id id id (fun _ => 0) 0
      (fun _ _ _ _ => 0)).isSome = true :=
  variational_pair_breaks_outer 1 1 1 1 1 1 1 4 id id id id (fun _ => 0) 0
    (fun _ _ _ _ => 0) le_rfl

/-- C10: provided the input has at least `numDynamic + 2` channels, the
positional extraction of paradis.py lines 221-224 makes the latitude grid
channel `Ctot - 2` of the input (second-to-last of the static slice) and
the longitude grid channel `Ctot - 1` (last); `paradisForward` passes
exactly `latGridOf` and `lonGridOf` to the advection step. -/
theorem static_grid_channels (numDynamic Ctot : ℕ) (x : ℕ → ℕ → ℕ → ℕ → ℝ)
    (h : numDynamic + 2 ≤ Ctot) (b i j : ℕ) :
    latGridOf numDynamic Ctot x b i j = x b (Ctot - 2) i j ∧
    lonGridOf numDynamic Ctot x b i j = x b (Ctot - 1) i j := by
  unfold latGridOf lonGridOf
  constructor
  · rw [show numDynamic + (Ctot - numDynamic - 2) = Ctot - 2 by omega]
  · rw [show numDynamic + (Ctot - numDynamic - 1) = Ctot - 1 by omega]

/-- Witness for C10 with one dynamic channel and four input channels on a
channel-enumerating input. -/
theorem static_grid_channels_witness :
    latGridOf 1 4 (fun _ c _ _ => (c : ℝ)) 0 0 0 =
      (fun _ c _ _ => ((c : ℕ) : ℝ)) 0 (4 - 2) 0 0 ∧
    lonGridOf 1 4 (fun _ c _ _ => (c : ℝ)) 0 0 0 =
      (fun _ c _ _ => ((c : ℕ) : ℝ)) 0 (4 - 1) 0 0 :=
  static_grid_channels 1 4 (fun _ c _ _ => (c : ℝ)) (by norm_num) 0 0 0

end ParadisModel
